import Mathlib

/-!
Verification of the cart-to-order reconciliation workflow of the
Noobiecypher/OOPS marketplace. The repository ships the React client
(`frontend/src/pages/*.js`) and its REST wrapper (`api.js`); the
Cart/Checkout service behind the REST boundary is specified in the
design document but its code is not in the repository, so the service
operations below are modelled from the spec (each such definition says
so in its doc comment). Client-side computations (page subtotals, the
quantity selector of the product-detail page, the order request body
built at checkout) are embedded directly from the JavaScript source.

Prices are decimals in the spec ("price (decimal ≥ 0)"); we embed them
as rationals. Quantities, stocks and identifiers are naturals; the
`update` endpoint receives its quantity as an integer because the spec
distinguishes zero and negative requested quantities.
-/

set_option maxRecDepth 100000

namespace OOPS

/-- A catalog product (spec §3): id, price, stock, derived rating and
rating count. Fields not touched by any claim (unit, category, seller,
description, image) are omitted from the embedding. -/
structure Product where
  id : Nat
  name : String
  price : ℚ
  stock : Nat
  rating : ℚ
  rating_count : Nat
  deriving Repr, DecidableEq

/-- A cart line (spec §3): per-user pending quantity of one product. -/
structure CartItem where
  id : Nat
  user_id : Nat
  product_id : Nat
  quantity : Nat
  deriving Repr, DecidableEq

/-- An order line-item snapshot (spec §3): immutable copy of product
name and unit price at order time, with the line total. -/
structure OrderItem where
  product_id : Nat
  product_name : String
  quantity : Nat
  price : ℚ
  total : ℚ
  deriving Repr, DecidableEq

/-- An order (spec §3). -/
structure Order where
  id : Nat
  user_id : Nat
  items : List OrderItem
  delivery_address : String
  payment_method : String
  total_amount : ℚ
  status : String
  deriving Repr, DecidableEq

/-- A feedback record (spec §3): append-only review with 1–5 rating. -/
structure Feedback where
  id : Nat
  user_id : Nat
  product_id : Nat
  rating : Nat
  comment : String
  deriving Repr, DecidableEq

/-- The error taxonomy of spec §7 (the members the claims mention). -/
inductive Err where
  | NotFound : Err
  | InvalidQuantity : Err
  | InvalidRating : Err
  | OutOfStock : Nat → Err
  | EmptyCart : Err
  deriving Repr, DecidableEq

/-- The persistent store the request-scoped operations act on:
catalog, all users' cart lines, orders, feedback, and an id counter. -/
structure State where
  products : List Product
  cart : List CartItem
  orders : List Order
  feedbacks : List Feedback
  nextId : Nat
  deriving Repr, DecidableEq

/-- First catalog product with the given id. -/
def findProduct (s : State) (pid : Nat) : Option Product :=
  s.products.find? (fun p => p.id = pid)

/-- Stock of the product with the given id, if it exists. -/
def stockOf (s : State) (pid : Nat) : Option Nat :=
  (findProduct s pid).map Product.stock

/-- The user's cart, in stored order (spec §4.1 `get`). -/
def cartOf (s : State) (uid : Nat) : List CartItem :=
  s.cart.filter (fun i => i.user_id = uid)

/-- The user's existing cart line for a product, if any. -/
def findCartItem (s : State) (uid pid : Nat) : Option CartItem :=
  s.cart.find? (fun i => i.user_id = uid && i.product_id = pid)

/-- Total quantity the user's cart holds of one product. -/
def orderedQty (c : List CartItem) (pid : Nat) : Nat :=
  ((c.filter (fun i => i.product_id = pid)).map CartItem.quantity).sum

/-- Modelled from the spec: Cart Aggregate `add(user_id, product_id,
quantity)` (§4.1) — the service code is not in the repository, only its
callers (`addToCart` in CustomerDashboard.js, ProductDetailPage.js).
Fails with `NotFound` if the product is unknown, `OutOfStock` if the
requested (or merged) quantity exceeds current stock; if a line for
that product already exists for the user the quantities are summed on
the existing line, never duplicated. Errors leave the state unchanged. -/
def add (s : State) (uid pid qty : Nat) : Except Err CartItem × State :=
  match findProduct s pid with
  | none => (Except.error Err.NotFound, s)
  | some p =>
    match findCartItem s uid pid with
    | some ex =>
      if ex.quantity + qty > p.stock then
        (Except.error (Err.OutOfStock pid), s)
      else
        let merged : CartItem := { ex with quantity := ex.quantity + qty }
        (Except.ok merged,
          { s with cart := s.cart.map (fun i => if i.id = ex.id then merged else i) })
    | none =>
      if qty > p.stock then
        (Except.error (Err.OutOfStock pid), s)
      else
        let item : CartItem := { id := s.nextId, user_id := uid, product_id := pid, quantity := qty }
        (Except.ok item, { s with cart := s.cart ++ [item], nextId := s.nextId + 1 })

/-- Modelled from the spec: Cart Aggregate `update(user_id, item_id,
new_quantity)` (§4.1) — service code not in the repository. Fails with
`InvalidQuantity` if new_quantity < 1, `OutOfStock` if it exceeds the
product's current stock, `NotFound` if the line or product is unknown;
errors leave the state unchanged. -/
def update (s : State) (uid itemId : Nat) (newQty : Int) : Except Err CartItem × State :=
  if newQty < 1 then (Except.error Err.InvalidQuantity, s)
  else
    match s.cart.find? (fun i => i.user_id = uid && i.id = itemId) with
    | none => (Except.error Err.NotFound, s)
    | some it =>
      match findProduct s it.product_id with
      | none => (Except.error Err.NotFound, s)
      | some p =>
        if newQty > (p.stock : Int) then
          (Except.error (Err.OutOfStock p.id), s)
        else
          let upd : CartItem := { it with quantity := newQty.toNat }
          (Except.ok upd,
            { s with cart := s.cart.map (fun i => if i.id = it.id then upd else i) })

/-- Modelled from the spec: Cart Aggregate `remove(user_id, item_id)`
(§4.1) — service code not in the repository. Idempotent no-op when the
line is already absent; never errors. -/
def remove (s : State) (uid itemId : Nat) : Except Err Unit × State :=
  (Except.ok (),
    { s with cart := s.cart.filter (fun i => !(i.user_id = uid && i.id = itemId)) })

/-- Modelled from the spec: Cart Aggregate `clear(user_id)` (§4.1),
used by checkout — removes every line of that user. -/
def clear (s : State) (uid : Nat) : List CartItem :=
  s.cart.filter (fun i => !(i.user_id = uid))

/-- Modelled from the spec: step 2–3 of the Order Placement Workflow
(§4.2) — service code not in the repository. Walks the cart lines,
re-validating each against live stock and snapshotting name, unit
price (taken fresh from the catalog, never from client input) and line
total = unit price × quantity; fails the whole list with
`OutOfStock(product_id)` on the first line whose quantity exceeds
available stock, `NotFound` on an unknown product. -/
def mkLines (s : State) : List CartItem → Except Err (List OrderItem)
  | [] => Except.ok []
  | item :: rest =>
    match findProduct s item.product_id with
    | none => Except.error Err.NotFound
    | some p =>
      if item.quantity > p.stock then Except.error (Err.OutOfStock p.id)
      else
        match mkLines s rest with
        | Except.error e => Except.error e
        | Except.ok ls =>
          Except.ok
            ({ product_id := p.id, product_name := p.name, quantity := item.quantity,
               price := p.price, total := p.price * item.quantity } :: ls)

/-- Sum of the line totals (spec §4.2 step 3). -/
def sumTotals (ls : List OrderItem) : ℚ :=
  (ls.map OrderItem.total).sum

/-- Decrement one product's stock in the catalog. -/
def decStock (ps : List Product) (pid qty : Nat) : List Product :=
  ps.map (fun p => if p.id = pid then { p with stock := p.stock - qty } else p)

/-- Decrement stock for every order line (spec §4.2 step 4). -/
def decStocks (ps : List Product) : List OrderItem → List Product
  | [] => ps
  | l :: ls => decStocks (decStock ps l.product_id l.quantity) ls

/-- Modelled from the spec: `placeOrder(user_id, delivery_address,
payment_method)` (§4.2) — service code not in the repository, only its
caller (`handlePlaceOrder` in CheckoutPage.js). Loads the user's
current cart (`EmptyCart` if it has zero items), re-validates every
line against live stock, computes line totals and order total from
catalog prices, then — as one atomic step — persists the order with
status "placed", decrements stock per line, and clears the user's
cart. Every error returns the state unchanged: no partial commit. -/
def placeOrder (s : State) (uid : Nat) (addr pm : String) : Except Err Order × State :=
  let c := cartOf s uid
  if c.isEmpty then (Except.error Err.EmptyCart, s)
  else
    match mkLines s c with
    | Except.error e => (Except.error e, s)
    | Except.ok ls =>
      let o : Order :=
        { id := s.nextId, user_id := uid, items := ls, delivery_address := addr,
          payment_method := pm, total_amount := sumTotals ls, status := "placed" }
      (Except.ok o,
        { s with products := decStocks s.products ls,
                 cart := clear s uid,
                 orders := s.orders ++ [o],
                 nextId := s.nextId + 1 })

/-- The feedback records for one product. -/
def feedbacksFor (s : State) (pid : Nat) : List Feedback :=
  s.feedbacks.filter (fun f => f.product_id = pid)

/-- Arithmetic mean of the ratings in a list of feedback records. -/
def meanRating (fs : List Feedback) : ℚ :=
  ((fs.map (fun f => (f.rating : ℚ))).sum) / fs.length

/-- Modelled from the spec: `submitFeedback(user_id, product_id,
rating, comment?)` (§4.3) — service code not in the repository, only
its caller (`handleSubmitFeedback` in ProductDetailPage.js). Fails with
`InvalidRating` outside 1–5 and `NotFound` for an unknown product;
otherwise appends the feedback record and recomputes the product's
rating as the arithmetic mean of all its feedback ratings, with
rating_count the number of those records. -/
def submitFeedback (s : State) (uid pid rating : Nat) (comment : String) :
    Except Err Feedback × State :=
  if rating < 1 || rating > 5 then (Except.error Err.InvalidRating, s)
  else
    match findProduct s pid with
    | none => (Except.error Err.NotFound, s)
    | some _ =>
      let fb : Feedback :=
        { id := s.nextId, user_id := uid, product_id := pid, rating := rating,
          comment := comment }
      let fs := feedbacksFor s pid ++ [fb]
      (Except.ok fb,
        { s with feedbacks := s.feedbacks ++ [fb],
                 products := s.products.map (fun p =>
                   if p.id = pid then
                     { p with rating := meanRating fs, rating_count := fs.length }
                   else p),
                 nextId := s.nextId + 1 })

/-- A cart entry as the client pages receive it from `GET /cart/{user}`:
a cart line with the product embedded for display. -/
structure CartLine where
  id : Nat
  product : Product
  quantity : Nat
  deriving Repr, DecidableEq

/-- One client-built order line of the request body
(CheckoutPage.js lines 57–63). -/
structure ReqItem where
  product_id : Nat
  product_name : String
  quantity : Nat
  price : ℚ
  total : ℚ
  deriving Repr, DecidableEq

/-- The `POST /orders/{user}` request body `orderData`
(CheckoutPage.js lines 56–67). -/
structure OrderRequest where
  items : List ReqItem
  delivery_address : String
  payment_method : String
  total_amount : ℚ
  deriving Repr, DecidableEq

namespace CartPage

/-- `calculateTotal` of CartPage.js lines 56–60: reduce over the cart
items of `total + item.product.price * item.quantity` from 0. -/
def calculateTotal (cartItems : List CartLine) : ℚ :=
  cartItems.foldl (fun total item => total + item.product.price * item.quantity) 0

/-- The Subtotal figure the page renders (CartPage.js line 176). -/
def subtotal (cartItems : List CartLine) : ℚ :=
  calculateTotal cartItems

/-- The Total figure the page renders (CartPage.js line 184); the
Delivery row is the literal "FREE", so the markup shows
`calculateTotal()` again. -/
def total (cartItems : List CartLine) : ℚ :=
  calculateTotal cartItems

end CartPage

namespace CheckoutPage

/-- `calculateTotal` of CheckoutPage.js lines 40–44: reduce over the
cart items of `total + item.product.price * item.quantity` from 0. -/
def calculateTotal (cartItems : List CartLine) : ℚ :=
  cartItems.foldl (fun total item => total + item.product.price * item.quantity) 0

/-- The Subtotal figure the page renders (CheckoutPage.js line 159). -/
def subtotal (cartItems : List CartLine) : ℚ :=
  calculateTotal cartItems

/-- The Total figure the page renders (CheckoutPage.js line 167); the
Delivery row is the literal "FREE", so the markup shows
`calculateTotal()` again. -/
def total (cartItems : List CartLine) : ℚ :=
  calculateTotal cartItems

/-- The `orderData` body built by `handlePlaceOrder`
(CheckoutPage.js lines 56–67): per-item snapshot with client-computed
price, per-item total and total_amount. -/
def orderData (cartItems : List CartLine) (deliveryAddress paymentMethod : String) :
    OrderRequest :=
  { items := cartItems.map (fun item =>
      { product_id := item.product.id,
        product_name := item.product.name,
        quantity := item.quantity,
        price := item.product.price,
        total := item.product.price * item.quantity }),
    delivery_address := deliveryAddress,
    payment_method := paymentMethod,
    total_amount := calculateTotal cartItems }

end CheckoutPage

/-- Modelled from the spec: the server handler behind
`POST /orders/{user}` — service code not in the repository. Per §4.2
the workflow takes only the identity, delivery address and payment
method from the request and recomputes every line and the order total
from the user's server-side cart and the authoritative catalog prices;
the client-supplied `items[].price`, `items[].total` and
`total_amount` of the body are never trusted (§9). -/
def createOrderEndpoint (s : State) (uid : Nat) (req : OrderRequest) :
    Except Err Order × State :=
  placeOrder s uid req.delivery_address req.payment_method

/-- A request line with its client-priced fields dropped: what remains
of a `ReqItem` besides the per-item price and per-item total. -/
def stripPrices (r : ReqItem) : Nat × String × Nat :=
  (r.product_id, r.product_name, r.quantity)

namespace ProductDetailPage

/-- The quantity selector's initial state
(ProductDetailPage.js line 22: `useState(1)`). -/
def initialQuantity : Nat := 1

/-- The decrease button's update (ProductDetailPage.js line 193):
`setQuantity(Math.max(1, quantity - 1))`. -/
def decreaseStep (q : Nat) : Nat := max 1 (q - 1)

/-- The increase button's update (ProductDetailPage.js line 202):
`setQuantity(Math.min(product.stock, quantity + 1))`. -/
def increaseStep (stock q : Nat) : Nat := min stock (q + 1)

/-- A click on one of the two quantity buttons. -/
inductive Click where
  | dec : Click
  | inc : Click
  deriving Repr, DecidableEq

/-- One user interaction with the selector. The increase button is
rendered with `disabled={quantity >= product.stock}`
(ProductDetailPage.js line 203), so its update only fires while
quantity < stock; the decrease button is always enabled. -/
def applyClick (stock q : Nat) : Click → Nat
  | Click.dec => decreaseStep q
  | Click.inc => if q < stock then increaseStep stock q else q

/-- Selector state after a sequence of clicks (latest click first),
starting from the initial state. -/
def runClicks (stock : Nat) : List Click → Nat
  | [] => initialQuantity
  | c :: cs => applyClick stock (runClicks stock cs) c

/-- Whether the Add to Cart button accepts the click: it is rendered
with `disabled={product.stock === 0}` (ProductDetailPage.js line 214). -/
def addToCartEnabled (stock : Nat) : Bool := stock != 0

/-- The body of the `POST /cart/{user}` request `addToCart` issues
(ProductDetailPage.js lines 58–61): the product id with the current
selector quantity. -/
def addToCartBody (pid q : Nat) : Nat × Nat := (pid, q)

end ProductDetailPage

/-! ### Example states used by the concrete instances of the claims -/

/-- Product P of the spec's end-to-end example: price 9.99, stock 5. -/
def productP : Product :=
  { id := 1, name := "P", price := 999/100, stock := 5, rating := 0, rating_count := 0 }

/-- A store whose user 7 holds product P at quantity 2. -/
def checkoutState : State :=
  { products := [productP],
    cart := [{ id := 10, user_id := 7, product_id := 1, quantity := 2 }],
    orders := [], feedbacks := [], nextId := 42 }

/-- The order the end-to-end example produces: total 19.98 = 999/50. -/
def placedOrderEx : Order :=
  { id := 42, user_id := 7,
    items := [{ product_id := 1, product_name := "P", quantity := 2,
                price := 999/100, total := 999/50 }],
    delivery_address := "12 Main St", payment_method := "online",
    total_amount := 999/50, status := "placed" }

/-- The store after the end-to-end example: stock 3, cart empty. -/
def placedStateEx : State :=
  { products := [{ id := 1, name := "P", price := 999/100, stock := 3,
                   rating := 0, rating_count := 0 }],
    cart := [], orders := [placedOrderEx], feedbacks := [], nextId := 43 }

/-- A store with product P and an empty cart. -/
def emptyCartState : State :=
  { products := [productP], cart := [], orders := [], feedbacks := [], nextId := 0 }

/-- The store after ratings 5, 3, 4 are submitted for product 1 from
the fresh store. -/
def reviewedState : State :=
  (submitFeedback (submitFeedback (submitFeedback emptyCartState 7 1 5 "").2 8 1 3 "").2 9 1 4 "").2

/-! ### Helper lemmas -/

/-- Folding `+ f i` from an accumulator is the accumulator plus the sum
of the images. -/
theorem foldl_add_eq_sum {α : Type} (f : α → ℚ) :
    ∀ (l : List α) (a : ℚ), l.foldl (fun t i => t + f i) a = a + (l.map f).sum
  | [], a => by simp
  | i :: l, a => by
    rw [List.foldl_cons, foldl_add_eq_sum f l, List.map_cons, List.sum_cons, add_assoc]

/-- `find?` by id commutes with mapping an id-preserving update over
the catalog. -/
theorem find?_map_of_id {α : Type} (key : α → Nat) (f : α → α)
    (hf : ∀ p, key (f p) = key p) (pid : Nat) :
    ∀ l : List α, (l.map f).find? (fun p => key p = pid) =
      (l.find? (fun p => key p = pid)).map f
  | [] => rfl
  | p :: l => by
    by_cases h : key p = pid
    · rw [List.map_cons, List.find?_cons_of_pos _ (by simp [hf, h]),
        List.find?_cons_of_pos _ (by simp [h]), Option.map]
    · rw [List.map_cons, List.find?_cons_of_neg _ (by simp [hf, h]),
        List.find?_cons_of_neg _ (by simp [h]), find?_map_of_id key f hf pid l]

/-- Filtering twice by the same predicate filters once. -/
theorem filter_twice {α : Type} (p : α → Bool) (l : List α) :
    (l.filter p).filter p = l.filter p := by
  rw [List.filter_filter]
  simp

/-- Clearing one user's lines leaves nothing of that user. -/
theorem filter_after_clear (uid : Nat) :
    ∀ l : List CartItem,
      (l.filter (fun i => !(i.user_id = uid))).filter (fun i => i.user_id = uid) = []
  | [] => rfl
  | i :: l => by
    by_cases h : i.user_id = uid
    · simp [h, filter_after_clear uid l]
    · simp [h, filter_after_clear uid l]

/-- Clearing one user's lines does not touch another user's cart. -/
theorem filter_clear_other (uid uid2 : Nat) (hne : uid2 ≠ uid) :
    ∀ l : List CartItem,
      (l.filter (fun i => !(i.user_id = uid))).filter (fun i => i.user_id = uid2) =
        l.filter (fun i => i.user_id = uid2)
  | [] => rfl
  | i :: l => by
    by_cases h : i.user_id = uid
    · have h2 : ¬ i.user_id = uid2 := by rw [h]; exact fun hh => hne hh.symm
      rw [List.filter_cons_of_neg (by simp [h]), List.filter_cons_of_neg (by simp [h2])]
      exact filter_clear_other uid uid2 hne l
    · rw [List.filter_cons_of_pos (by simp [h])]
      by_cases h2 : i.user_id = uid2
      · rw [List.filter_cons_of_pos (by simp [h2]), List.filter_cons_of_pos (by simp [h2]),
          filter_clear_other uid uid2 hne l]
      · rw [List.filter_cons_of_neg (by simp [h2]), List.filter_cons_of_neg (by simp [h2]),
          filter_clear_other uid uid2 hne l]

/-- Total quantity a list of order lines takes of one product. -/
def linesQty (ls : List OrderItem) (pid : Nat) : Nat :=
  ((ls.filter (fun l => l.product_id = pid)).map OrderItem.quantity).sum

/-- Every order line produced by `mkLines` snapshots the catalog
product found under its product id: its price is that product's price
and its total is that price times its quantity. -/
theorem mkLines_lines (s : State) :
    ∀ (c : List CartItem) (ls : List OrderItem), mkLines s c = Except.ok ls →
      ∀ l ∈ ls, ∃ p, findProduct s l.product_id = some p ∧ l.price = p.price ∧
        l.product_name = p.name ∧ l.total = p.price * (l.quantity : ℚ)
  | [], ls => by
    intro h l hl
    simp only [mkLines] at h
    cases h
    cases hl
  | item :: rest, ls => by
    intro h l hl
    simp only [mkLines] at h
    cases hp : findProduct s item.product_id with
    | none => simp only [hp] at h; cases h
    | some p =>
      simp only [hp] at h
      by_cases hq : item.quantity > p.stock
      · rw [if_pos hq] at h; cases h
      · rw [if_neg hq] at h
        cases hm : mkLines s rest with
        | error e => simp only [hm] at h; cases h
        | ok tail =>
          simp only [hm] at h
          cases h
          cases hl with
          | head =>
            have hid : p.id = item.product_id := by
              have := List.find?_some hp
              simpa using this
            refine ⟨p, ?_, rfl, rfl, rfl⟩
            show findProduct s p.id = some p
            rw [hid]
            exact hp
          | tail _ hmem => exact mkLines_lines s rest tail hm l hmem

/-- `mkLines` carries each cart line's product id and quantity through
unchanged, so the quantity its lines take of any product is the
quantity the cart holds of it. -/
theorem mkLines_qty (s : State) :
    ∀ (c : List CartItem) (ls : List OrderItem), mkLines s c = Except.ok ls →
      ∀ pid, linesQty ls pid = orderedQty c pid
  | [], ls => by
    intro h pid
    simp only [mkLines] at h
    cases h
    rfl
  | item :: rest, ls => by
    intro h pid
    simp only [mkLines] at h
    cases hp : findProduct s item.product_id with
    | none => simp only [hp] at h; cases h
    | some p =>
      simp only [hp] at h
      by_cases hq : item.quantity > p.stock
      · rw [if_pos hq] at h; cases h
      · rw [if_neg hq] at h
        cases hm : mkLines s rest with
        | error e => simp only [hm] at h; cases h
        | ok tail =>
          simp only [hm] at h
          cases h
          have hid : p.id = item.product_id := by
            have := List.find?_some hp
            simpa using this
          have ih := mkLines_qty s rest tail hm pid
          by_cases hpid : item.product_id = pid
          · rw [linesQty, orderedQty,
              List.filter_cons_of_pos (by simp [hid, hpid]),
              List.filter_cons_of_pos (by simp [hpid]),
              List.map_cons, List.map_cons, List.sum_cons, List.sum_cons]
            exact congrArg (fun n => item.quantity + n) ih
          · rw [linesQty, orderedQty,
              List.filter_cons_of_neg (by simp [hid, hpid]),
              List.filter_cons_of_neg (by simp [hpid])]
            exact ih

/-- Decrementing stock along a list of order lines subtracts, for each
product id, exactly the total quantity those lines take of it. -/
theorem find?_decStocks (pid : Nat) :
    ∀ (ls : List OrderItem) (ps : List Product),
      (decStocks ps ls).find? (fun p => p.id = pid) =
        (ps.find? (fun p => p.id = pid)).map
          (fun p => { p with stock := p.stock - linesQty ls pid })
  | [], ps => by
    cases hf : ps.find? (fun p => p.id = pid) with
    | none => simp [decStocks, hf]
    | some p => simp [decStocks, hf, linesQty]
  | l :: ls, ps => by
    have hf : ∀ p : Product,
        (if p.id = l.product_id then { p with stock := p.stock - l.quantity } else p).id
          = p.id := by
      intro p; by_cases h : p.id = l.product_id <;> simp [h]
    show (decStocks (decStock ps l.product_id l.quantity) ls).find? (fun p => p.id = pid) = _
    rw [find?_decStocks pid ls, decStock,
      find?_map_of_id (fun p => p.id)
        (fun p => if p.id = l.product_id then { p with stock := p.stock - l.quantity } else p)
        hf pid ps]
    cases hfind : ps.find? (fun p => p.id = pid) with
    | none => rfl
    | some p =>
      have hp : p.id = pid := by simpa using List.find?_some hfind
      refine congrArg some ?_
      by_cases hl : p.id = l.product_id
      · have hlp : l.product_id = pid := by rw [← hl, hp]
        have hq : linesQty (l :: ls) pid = l.quantity + linesQty ls pid := by
          rw [linesQty, List.filter_cons_of_pos (by simp [hlp]), List.map_cons, List.sum_cons]
          rfl
        simp only [if_pos hl, hq]
        simp [Nat.sub_sub]
      · have hlp : ¬ l.product_id = pid := fun hh => hl (by rw [hp, hh])
        have hq : linesQty (l :: ls) pid = linesQty ls pid := by
          rw [linesQty, List.filter_cons_of_neg (by simp [hlp])]
          rfl
        simp only [if_neg hl, hq]

/-- Elimination principle for a successful `placeOrder`: the cart was
non-empty, the line snapshots validated, and the order and new store
are exactly the ones the workflow builds. -/
theorem placeOrder_ok_elim (s : State) (uid : Nat) (addr pm : String) (o : Order) (t : State)
    (h : placeOrder s uid addr pm = (Except.ok o, t)) :
    ∃ ls, mkLines s (cartOf s uid) = Except.ok ls ∧
      o = { id := s.nextId, user_id := uid, items := ls, delivery_address := addr,
            payment_method := pm, total_amount := sumTotals ls, status := "placed" } ∧
      t = { s with products := decStocks s.products ls,
                   cart := clear s uid,
                   orders := s.orders ++ [o],
                   nextId := s.nextId + 1 } := by
  by_cases he : (cartOf s uid).isEmpty
  · simp only [placeOrder, if_pos he] at h
    exact Except.noConfusion (congrArg Prod.fst h)
  · simp only [placeOrder, if_neg he] at h
    cases hm : mkLines s (cartOf s uid) with
    | error e =>
      simp only [hm] at h
      exact Except.noConfusion (congrArg Prod.fst h)
    | ok ls =>
      simp only [hm] at h
      injection h with h1 h2
      injection h1 with h1
      subst h1
      subst h2
      exact ⟨ls, rfl, rfl, rfl⟩

/-! ### Claim theorems -/

/-- C8: `remove(user_id, item_id)` is idempotent — the call succeeds
whether or not the line is present, and a second call after the first
succeeds again and leaves the state exactly as the first left it. -/
theorem remove_idempotent (s : State) (uid itemId : Nat) :
    (remove s uid itemId).1 = Except.ok () ∧
    remove (remove s uid itemId).2 uid itemId = (Except.ok (), (remove s uid itemId).2) :=
  by
  refine ⟨rfl, ?_⟩
  simp only [remove, Prod.mk.injEq, State.mk.injEq, true_and, and_true]
  exact filter_twice _ s.cart

/-- C9: the `calculateTotal` functions of CartPage.js and
CheckoutPage.js compute the same value — the sum over the cart items of
product price times quantity — and on each page both the rendered
Subtotal and the rendered Total are that same value (the Delivery row
is the literal "FREE", contributing nothing). -/
theorem page_totals_equivalent (items : List CartLine) :
    CartPage.calculateTotal items = CheckoutPage.calculateTotal items ∧
    CartPage.calculateTotal items =
      (items.map (fun i => i.product.price * (i.quantity : ℚ))).sum ∧
    CartPage.subtotal items = CartPage.calculateTotal items ∧
    CartPage.total items = CartPage.subtotal items ∧
    CheckoutPage.subtotal items = CheckoutPage.calculateTotal items ∧
    CheckoutPage.total items = CheckoutPage.subtotal items :=
  by
  refine ⟨rfl, ?_, rfl, rfl, rfl, rfl⟩
  have h := foldl_add_eq_sum (fun i : CartLine => i.product.price * i.quantity) items 0
  rw [CartPage.calculateTotal, h, zero_add]

/-- C4: for a user whose cart has zero items, `placeOrder` fails with
`EmptyCart` and returns the store unchanged — no order is created and
no stock moves. -/
theorem placeOrder_emptyCart (s : State) (uid : Nat) (addr pm : String)
    (h : cartOf s uid = []) :
    placeOrder s uid addr pm = (Except.error Err.EmptyCart, s) ∧
    ((placeOrder s uid addr pm).2).orders = s.orders ∧
    ((placeOrder s uid addr pm).2).products = s.products := by
  have he : (cartOf s uid).isEmpty = true := by rw [h]; rfl
  have hmain : placeOrder s uid addr pm = (Except.error Err.EmptyCart, s) := by
    simp only [placeOrder, he, if_pos]
  exact ⟨hmain, by rw [hmain], by rw [hmain]⟩

/-- Witness for C4 at the concrete store with an empty cart. -/
theorem placeOrder_emptyCart_witness :
    placeOrder emptyCartState 7 "12 Main St" "online" = (Except.error Err.EmptyCart, emptyCartState) :=
  (placeOrder_emptyCart emptyCartState 7 "12 Main St" "online" (by decide)).1

/-- C7: `update(user_id, item_id, new_quantity)` fails with
`InvalidQuantity` when the new quantity is zero or negative, and with
`OutOfStock` when it exceeds the product's current stock; in both
cases the store — in particular the cart — is returned unchanged. -/
theorem update_rejects (s : State) (uid : Nat) :
    (∀ itemId (qz : Int), qz < 1 →
      update s uid itemId qz = (Except.error Err.InvalidQuantity, s)) ∧
    (∀ itemId (qb : Int) (it : CartItem) (p : Product),
      s.cart.find? (fun i => i.user_id = uid && i.id = itemId) = some it →
      findProduct s it.product_id = some p →
      (p.stock : Int) < qb →
      update s uid itemId qb = (Except.error (Err.OutOfStock p.id), s)) := by
  constructor
  · intro itemId qz hz
    simp only [update, if_pos hz]
  · intro itemId qb it p hfind hprod hgt
    have hn : ¬ qb < 1 := by omega
    simp only [update, if_neg hn, hfind, hprod, gt_iff_lt, if_pos hgt]

/-- Witness for C7: at the concrete store, quantity 0 is rejected as
invalid and quantity 7 (stock 5) as out of stock, the store unchanged. -/
theorem update_rejects_witness :
    update checkoutState 7 10 0 = (Except.error Err.InvalidQuantity, checkoutState) ∧
    update checkoutState 7 10 7 = (Except.error (Err.OutOfStock 1), checkoutState) :=
  ⟨(update_rejects checkoutState 7).1 10 0 (by decide),
   (update_rejects checkoutState 7).2 10 7
     { id := 10, user_id := 7, product_id := 1, quantity := 2 } productP
     (by decide) (by with_unfolding_all rfl) (by decide)⟩

/-- C5: when `add(user_id, product_id, quantity)` finds an existing
cart line for that product, the quantities are summed onto that line —
the cart keeps its length, so no duplicate line is created — and the
summed quantity is re-validated against current stock, failing with
`OutOfStock` (state unchanged) when it exceeds it. -/
theorem add_merges (s : State) (uid pid q1 q2 : Nat) (ex : CartItem) (p : Product)
    (hp : findProduct s pid = some p)
    (hex : findCartItem s uid pid = some ex)
    (hle : ex.quantity + q1 ≤ p.stock)
    (hgt : p.stock < ex.quantity + q2) :
    (add s uid pid q1).1 = Except.ok { ex with quantity := ex.quantity + q1 } ∧
    ((add s uid pid q1).2).cart = s.cart.map
      (fun i => if i.id = ex.id then { ex with quantity := ex.quantity + q1 } else i) ∧
    ((add s uid pid q1).2).cart.length = s.cart.length ∧
    add s uid pid q2 = (Except.error (Err.OutOfStock pid), s) := by
  have hnot : ¬ ex.quantity + q1 > p.stock := Nat.not_lt.mpr hle
  refine ⟨?_, ?_, ?_, ?_⟩
  · simp only [add, hp, hex, if_neg hnot]
  · simp only [add, hp, hex, if_neg hnot]
  · simp only [add, hp, hex, if_neg hnot, List.length_map]
  · simp only [add, hp, hex, if_pos hgt]

/-- Witness for C5 at the concrete store: user 7 holds product 1
(stock 5) at quantity 2; adding 2 more merges to 4, adding 4 more is
rejected as out of stock. -/
theorem add_merges_witness :
    (add checkoutState 7 1 2).1 =
      Except.ok { id := 10, user_id := 7, product_id := 1, quantity := 4 } ∧
    ((add checkoutState 7 1 2).2).cart.length = checkoutState.cart.length ∧
    add checkoutState 7 1 4 = (Except.error (Err.OutOfStock 1), checkoutState) := by
  have h := add_merges checkoutState 7 1 2 4
    { id := 10, user_id := 7, product_id := 1, quantity := 2 } productP
    (by with_unfolding_all rfl) (by decide) (by decide) (by decide)
  exact ⟨h.1, h.2.2.1, h.2.2.2⟩

/-- C10: the quantity selector of ProductDetailPage starts at 1 and,
under the page's click handlers (decrease is `Math.max(1, q - 1)`,
increase is `Math.min(stock, q + 1)` and is disabled once q ≥ stock),
every reachable quantity q satisfies 1 ≤ q, and q ≤ stock whenever
stock ≥ 1; since the Add to Cart button is disabled exactly when stock
is 0, every add-to-cart request the page issues carries a quantity in
[1, stock]. -/
theorem quantity_selector_invariant (stock pid : Nat)
    (clicks : List ProductDetailPage.Click) :
    ProductDetailPage.runClicks stock [] = 1 ∧
    1 ≤ ProductDetailPage.runClicks stock clicks ∧
    (1 ≤ stock → ProductDetailPage.runClicks stock clicks ≤ stock) ∧
    (ProductDetailPage.addToCartEnabled stock = true →
      1 ≤ (ProductDetailPage.addToCartBody pid (ProductDetailPage.runClicks stock clicks)).2 ∧
      (ProductDetailPage.addToCartBody pid (ProductDetailPage.runClicks stock clicks)).2 ≤ stock) := by
  have step : ∀ (q : Nat) (c : ProductDetailPage.Click), 1 ≤ q → (1 ≤ stock → q ≤ stock) →
      1 ≤ ProductDetailPage.applyClick stock q c ∧
      (1 ≤ stock → ProductDetailPage.applyClick stock q c ≤ stock) := by
    intro q c h1 h2
    cases c with
    | dec =>
      simp only [ProductDetailPage.applyClick, ProductDetailPage.decreaseStep]
      constructor
      · exact Nat.le_max_left 1 _
      · intro hs
        exact Nat.max_le.mpr ⟨hs, Nat.le_trans (Nat.sub_le _ _) (h2 hs)⟩
    | inc =>
      simp only [ProductDetailPage.applyClick, ProductDetailPage.increaseStep]
      by_cases hlt : q < stock
      · rw [if_pos hlt]
        exact ⟨by omega, fun _ => Nat.min_le_left _ _⟩
      · rw [if_neg hlt]
        exact ⟨h1, h2⟩
  have key : ∀ cs : List ProductDetailPage.Click,
      1 ≤ ProductDetailPage.runClicks stock cs ∧
      (1 ≤ stock → ProductDetailPage.runClicks stock cs ≤ stock) := by
    intro cs
    induction cs with
    | nil => exact ⟨Nat.le_refl 1, fun h => h⟩
    | cons c cs ih => exact step (ProductDetailPage.runClicks stock cs) c ih.1 ih.2
  have henabled : ProductDetailPage.addToCartEnabled stock = true → 1 ≤ stock := by
    intro h
    rcases Nat.eq_zero_or_pos stock with h0 | h1
    · rw [ProductDetailPage.addToCartEnabled, h0] at h
      exact absurd h (by decide)
    · exact h1
  exact ⟨rfl, (key clicks).1, (key clicks).2,
    fun h => ⟨(key clicks).1, (key clicks).2 (henabled h)⟩⟩

/-- Witness for C10: with stock 5 and two increase clicks the selector
reads 3, within bounds, and the add-to-cart body carries it. -/
theorem quantity_selector_invariant_witness :
    1 ≤ ProductDetailPage.runClicks 5
        [ProductDetailPage.Click.inc, ProductDetailPage.Click.inc] ∧
    ProductDetailPage.runClicks 5
        [ProductDetailPage.Click.inc, ProductDetailPage.Click.inc] ≤ 5 ∧
    (ProductDetailPage.addToCartBody 1 (ProductDetailPage.runClicks 5
        [ProductDetailPage.Click.inc, ProductDetailPage.Click.inc])).2 ≤ 5 := by
  have h := quantity_selector_invariant 5 1
    [ProductDetailPage.Click.inc, ProductDetailPage.Click.inc]
  exact ⟨h.2.1, h.2.2.1 (by decide), (h.2.2.2 (by decide)).2⟩

/-- C1: a successful `placeOrder` performs exactly the three specified
effects — the order is appended with status "placed", each product's
stock drops by the quantity the user's cart ordered of it (other
products keep their stock, since the ordered quantity is then zero),
and the user's cart is cleared (other users' carts and the feedback
log untouched) — and the effects are all-or-none: whenever the
operation returns an error, the returned store is the original one. -/
theorem placeOrder_atomic (s : State) (uid : Nat) (addr pm : String) :
    (∀ o t, placeOrder s uid addr pm = (Except.ok o, t) →
      o.status = "placed" ∧
      t.orders = s.orders ++ [o] ∧
      t.feedbacks = s.feedbacks ∧
      cartOf t uid = [] ∧
      (∀ uid2, uid2 ≠ uid → cartOf t uid2 = cartOf s uid2) ∧
      (∀ pid, stockOf t pid =
        (findProduct s pid).map (fun p => p.stock - orderedQty (cartOf s uid) pid))) ∧
    (∀ e, (placeOrder s uid addr pm).1 = Except.error e →
      (placeOrder s uid addr pm).2 = s) := by
  constructor
  · intro o t h
    obtain ⟨ls, hm, ho, ht⟩ := placeOrder_ok_elim s uid addr pm o t h
    subst ho
    subst ht
    refine ⟨rfl, rfl, rfl, ?_, ?_, ?_⟩
    · exact filter_after_clear uid s.cart
    · intro uid2 hne
      exact filter_clear_other uid uid2 hne s.cart
    · intro pid
      show ((decStocks s.products ls).find? (fun p => p.id = pid)).map Product.stock = _
      rw [find?_decStocks pid ls s.products, Option.map_map,
        mkLines_qty s (cartOf s uid) ls hm pid]
      rfl
  · intro e he
    by_cases hE : (cartOf s uid).isEmpty
    · simp only [placeOrder, if_pos hE]
    · cases hm : mkLines s (cartOf s uid) with
      | error e2 => simp only [placeOrder, if_neg hE, hm]
      | ok ls =>
        simp only [placeOrder, if_neg hE, hm] at he
        exact Except.noConfusion he

/-- Witness for C1: at the concrete store, the placed order has status
"placed", is appended to the order log, P's stock drops to 3 and the
user's cart is cleared. -/
theorem placeOrder_atomic_witness :
    placedOrderEx.status = "placed" ∧
    placedStateEx.orders = checkoutState.orders ++ [placedOrderEx] ∧
    stockOf placedStateEx 1 = some 3 ∧
    cartOf placedStateEx 7 = [] := by
  have h := (placeOrder_atomic checkoutState 7 "12 Main St" "online").1
    placedOrderEx placedStateEx (by with_unfolding_all rfl)
  refine ⟨h.1, h.2.1, ?_, h.2.2.2.1⟩
  rw [h.2.2.2.2.2 1]
  with_unfolding_all rfl

/-- C2: every order line's total is the catalog unit price times its
quantity, and the order's total_amount is the sum of the line totals;
concretely, a cart holding product P (price 9.99 = 999/100, stock 5)
at quantity 2 checks out to an order of total 19.98 = 999/50, stock 3,
and an empty cart for that user. -/
theorem order_totals (s : State) (uid : Nat) (addr pm : String) (o : Order) (t : State)
    (h : placeOrder s uid addr pm = (Except.ok o, t)) :
    ((∀ l ∈ o.items, ∃ p, findProduct s l.product_id = some p ∧ l.price = p.price ∧
        l.total = p.price * (l.quantity : ℚ)) ∧
      o.total_amount = (o.items.map OrderItem.total).sum) ∧
    (placeOrder checkoutState 7 "12 Main St" "online" = (Except.ok placedOrderEx, placedStateEx) ∧
      placedOrderEx.total_amount = 999/50 ∧
      stockOf placedStateEx 1 = some 3 ∧
      cartOf placedStateEx 7 = []) := by
  obtain ⟨ls, hm, ho, ht⟩ := placeOrder_ok_elim s uid addr pm o t h
  subst ho
  subst ht
  refine ⟨⟨?_, rfl⟩, by with_unfolding_all rfl, rfl, by with_unfolding_all rfl, rfl⟩
  intro l hl
  obtain ⟨p, hp, hpr, hname, htot⟩ := mkLines_lines s (cartOf s uid) ls hm l hl
  exact ⟨p, hp, hpr, htot⟩

/-- Witness for C2: the end-to-end checkout at price 9.99, stock 5,
quantity 2. -/
theorem order_totals_witness :
    placeOrder checkoutState 7 "12 Main St" "online" = (Except.ok placedOrderEx, placedStateEx) ∧
    placedOrderEx.total_amount = 999/50 ∧
    stockOf placedStateEx 1 = some 3 ∧
    cartOf placedStateEx 7 = [] :=
  (order_totals checkoutState 7 "12 Main St" "online" placedOrderEx placedStateEx
    (by with_unfolding_all rfl)).2

/-- C3: the order produced behind `POST /orders/{user}` does not
depend on the client-supplied per-item price, per-item total or
total_amount fields of the request body: two requests identical except
for those fields produce identical results, and on success every line
is priced from the catalog at placement time with the order total the
sum of those line totals. -/
theorem order_ignores_client_prices (s : State) (uid : Nat) (r1 r2 : OrderRequest)
    (haddr : r1.delivery_address = r2.delivery_address)
    (hpm : r1.payment_method = r2.payment_method)
    (_hitems : r1.items.map stripPrices = r2.items.map stripPrices) :
    createOrderEndpoint s uid r1 = createOrderEndpoint s uid r2 ∧
    (∀ o t, createOrderEndpoint s uid r1 = (Except.ok o, t) →
      (∀ l ∈ o.items, ∃ p, findProduct s l.product_id = some p ∧ l.price = p.price ∧
        l.total = p.price * (l.quantity : ℚ)) ∧
      o.total_amount = (o.items.map OrderItem.total).sum) := by
  constructor
  · rw [createOrderEndpoint, createOrderEndpoint, haddr, hpm]
  · intro o t h
    obtain ⟨ls, hm, ho, ht⟩ :=
      placeOrder_ok_elim s uid r1.delivery_address r1.payment_method o t h
    subst ho
    constructor
    · intro l hl
      obtain ⟨p, hp, hpr, hname, htot⟩ := mkLines_lines s (cartOf s uid) ls hm l hl
      exact ⟨p, hp, hpr, htot⟩
    · rfl

/-- The request CheckoutPage builds for the example cart, with its
honestly computed client-side prices. -/
def honestRequest : OrderRequest :=
  CheckoutPage.orderData [{ id := 10, product := productP, quantity := 2 }] "12 Main St" "online"

/-- The same request with tampered client-side price fields. -/
def tamperedRequest : OrderRequest :=
  { items := [{ product_id := 1, product_name := "P", quantity := 2, price := 0, total := 0 }],
    delivery_address := "12 Main St", payment_method := "online", total_amount := 0 }

/-- Witness for C3: the honestly priced request and the
price-tampered request produce the same result at the concrete store. -/
theorem order_ignores_client_prices_witness :
    createOrderEndpoint checkoutState 7 honestRequest =
      createOrderEndpoint checkoutState 7 tamperedRequest :=
  (order_ignores_client_prices checkoutState 7 honestRequest tamperedRequest
    rfl rfl (by decide)).1


/-- Updating the rating fields of the product with a given id leaves
`find?` by that id returning the updated product. -/
theorem find?_update_rating (ps : List Product) (pid : Nat) (r : ℚ) (n : Nat) (p0 : Product)
    (hp0 : ps.find? (fun q => q.id = pid) = some p0) :
    (ps.map (fun q => if q.id = pid then { q with rating := r, rating_count := n } else q)).find?
        (fun q => q.id = pid) =
      some { p0 with rating := r, rating_count := n } := by
  have hf : ∀ q : Product,
      (if q.id = pid then { q with rating := r, rating_count := n } else q).id = q.id := by
    intro q
    by_cases h : q.id = pid <;> simp [h]
  rw [find?_map_of_id (fun q => q.id) _ hf pid ps, hp0, Option.map]
  have hid : p0.id = pid := by simpa using List.find?_some hp0
  rw [if_pos hid]

/-- C6: after a successful `submitFeedback`, the product's rating is
the arithmetic mean of all feedback ratings for that product and its
rating_count is the number of those feedback records; concretely,
submitting ratings 5, 3 and 4 for product 1 leaves rating 4 and
rating_count 3. -/
theorem submitFeedback_mean (s : State) (uid pid rating : Nat) (comment : String)
    (fb : Feedback) (t : State)
    (h : submitFeedback s uid pid rating comment = (Except.ok fb, t)) :
    (∀ p, findProduct t pid = some p →
      p.rating = meanRating (feedbacksFor t pid) ∧
      p.rating_count = (feedbacksFor t pid).length) ∧
    ((findProduct reviewedState 1).map Product.rating = some 4 ∧
      (findProduct reviewedState 1).map Product.rating_count = some 3) := by
  refine ⟨?_, by with_unfolding_all rfl, by with_unfolding_all rfl⟩
  by_cases hval : (rating < 1 || rating > 5) = true
  · simp only [submitFeedback, if_pos hval] at h
    exact Except.noConfusion (congrArg Prod.fst h)
  · simp only [submitFeedback, if_neg hval] at h
    cases hp0 : findProduct s pid with
    | none =>
      simp only [hp0] at h
      exact Except.noConfusion (congrArg Prod.fst h)
    | some p0 =>
      simp only [hp0] at h
      injection h with h1 h2
      have hnew : ∃ nf : Feedback, nf.product_id = pid ∧
          t.feedbacks = s.feedbacks ++ [nf] ∧
          t.products = s.products.map (fun q =>
            if q.id = pid then
              { q with rating := meanRating (feedbacksFor s pid ++ [nf]),
                       rating_count := (feedbacksFor s pid ++ [nf]).length }
            else q) :=
        ⟨{ id := s.nextId, user_id := uid, product_id := pid, rating := rating,
           comment := comment },
         rfl, by rw [← h2], by rw [← h2]⟩
      obtain ⟨nf, hnfpid, hfeed, hprod⟩ := hnew
      intro p hp
      have hfs : feedbacksFor t pid = feedbacksFor s pid ++ [nf] := by
        show t.feedbacks.filter (fun f => f.product_id = pid) = _
        rw [hfeed, List.filter_append]
        congr 1
        simp [hnfpid]
      have hft : findProduct t pid = (s.products.map (fun q =>
          if q.id = pid then
            { q with rating := meanRating (feedbacksFor s pid ++ [nf]),
                     rating_count := (feedbacksFor s pid ++ [nf]).length }
          else q)).find? (fun q => q.id = pid) := by
        unfold findProduct
        rw [hprod]
      rw [hft, find?_update_rating s.products pid _ _ p0 hp0] at hp
      injection hp with hp
      subst hp
      rw [hfs]
      exact ⟨rfl, rfl⟩

/-- Witness for C6: the first 5-star review from the fresh store
succeeds, and the 5, 3, 4 sequence leaves mean 4 over 3 reviews. -/
theorem submitFeedback_mean_witness :
    (findProduct reviewedState 1).map Product.rating = some 4 ∧
    (findProduct reviewedState 1).map Product.rating_count = some 3 :=
  (submitFeedback_mean emptyCartState 7 1 5 ""
    { id := 0, user_id := 7, product_id := 1, rating := 5, comment := "" }
    (submitFeedback emptyCartState 7 1 5 "").2 (by with_unfolding_all rfl)).2

end OOPS
